import Mathlib

/-!
Verification of the weather-proxy HTTP backend (src/server.ts).

The server exposes two routes: a health endpoint returning a fixed payload,
and a weather endpoint that validates a `city` query parameter, reads the
upstream credential from the environment, calls the upstream weather API,
and maps the upstream outcome to a client-facing response.

We shallowly embed the JavaScript values and operations the handler uses
(member access, optional chaining, nullish coalescing, falsy tests on
strings), the upstream call outcome, and the handler control flow of
src/server.ts lines 29-32 (health) and 36-117 (weather), plus the
bootstrap of lines 123-129.
-/

/-- JavaScript runtime values as they occur in this program: `undefined`,
`null`, numbers (the handler performs no arithmetic, so JSON numbers are
modelled as rationals), strings, arrays and objects.  Objects are ordered
field lists, as produced by JSON.parse. -/
inductive JsVal where
  | undefined : JsVal
  | null : JsVal
  | num : Rat → JsVal
  | str : String → JsVal
  | arr : List JsVal → JsVal
  | obj : List (String × JsVal) → JsVal

/-- Member access `v.k` on a value that is neither `undefined` nor `null`:
on an object it yields the field value or `undefined` when the key is
absent; on the primitives and arrays appearing here none of the accessed
keys (name, main, temp, weather, description, icon) exist, so it yields
`undefined`. -/
def JsVal.member : JsVal → String → JsVal
  | .obj fs, k => (fs.lookup k).getD .undefined
  | _, _ => .undefined

/-- Full JavaScript member access `v.k`: throws a TypeError when `v` is
`undefined` or `null`, otherwise reads the member.  A thrown error is an
`Except.error` carrying the exception text. -/
def JsVal.get (v : JsVal) (k : String) : Except String JsVal :=
  match v with
  | .undefined => .error ("TypeError: cannot read properties of undefined (reading " ++ k ++ ")")
  | .null => .error ("TypeError: cannot read properties of null (reading " ++ k ++ ")")
  | v => .ok (v.member k)

/-- Optional-chained member access `v?.k`: short-circuits to `undefined`
when `v` is `undefined` or `null`, otherwise reads the member (which can
no longer throw). -/
def JsVal.optMember (v : JsVal) (k : String) : JsVal :=
  match v with
  | .undefined => .undefined
  | .null => .undefined
  | v => v.member k

/-- Indexing `v[0]` on a non-nullish value: first element of an array (or
`undefined` when empty), field "0" of an object, first character of a
string, `undefined` on numbers. -/
def JsVal.indexZero : JsVal → JsVal
  | .arr xs => xs.headD .undefined
  | .obj fs => (fs.lookup "0").getD .undefined
  | .str s => if s.isEmpty then .undefined else .str (String.singleton s.front)
  | _ => .undefined

/-- Optional-chained indexing `v?.[0]`: `undefined` when `v` is `undefined`
or `null`, otherwise `v[0]`. -/
def JsVal.optIndexZero (v : JsVal) : JsVal :=
  match v with
  | .undefined => .undefined
  | .null => .undefined
  | v => v.indexZero

/-- Nullish coalescing `v ?? d`: the default replaces only `undefined` and
`null`. -/
def JsVal.nullish (v d : JsVal) : JsVal :=
  match v with
  | .undefined => d
  | .null => d
  | v => v

/-- JavaScript falsy test `!x` on a value that is a string or absent
(`undefined`): true exactly for `undefined` and the empty string.  Used
for the `city` check (line 45) and the `apiKey` check (line 57). -/
def strFalsy : Option String → Bool
  | none => true
  | some s => s == ""

/-- Result of `JSON.parse` on the raw upstream body text together with the
upstream HTTP status (lines 75-99): parsing either yields a value or
throws. -/
structure UpstreamResponse where
  status : Nat
  parsedBody : Except String JsVal

/-- Outcome of the outbound `fetch` (line 75): either a response arrives,
or the call (or reading its body) throws with some exception text, e.g.
when the upstream is unreachable. -/
inductive FetchOutcome where
  | ok : UpstreamResponse → FetchOutcome
  | networkError : String → FetchOutcome

/-- An HTTP response sent to the client: status code and JSON object body
(ordered field list). -/
structure HttpResponse where
  status : Nat
  body : List (String × JsVal)

/-- Express `res.json(b)` with no explicit status: sends status 200. -/
def resJson (body : List (String × JsVal)) : HttpResponse :=
  { status := 200, body := body }

/-- Express `res.status(s).json(b)`. -/
def resStatusJson (s : Nat) (body : List (String × JsVal)) : HttpResponse :=
  { status := s, body := body }

/-- The Fetch API `response.ok`: true iff the status is in 200..299
(line 84). -/
def responseOk (status : Nat) : Bool :=
  decide (200 ≤ status) && decide (status ≤ 299)

/-- What the weather handler did for one request: the response sent, and
whether the outbound `fetch` of line 75 was executed. -/
structure WeatherOutcome where
  response : HttpResponse
  upstreamCalled : Bool

/-- The success-path body construction of lines 99-109, evaluated in
source order: `data.name`, then `data.main.temp` (plain member accesses,
which throw on a nullish receiver), then the optional chains
`data.weather?.[0]?.description ?? "N/A"` and
`data.weather?.[0]?.icon ?? "N/A"` (the pure chain `data.weather?.[0]` is
evaluated twice in the source with identical results, so it is shared
here). -/
def buildSuccessBody (data : JsVal) : Except String (List (String × JsVal)) :=
  match data.get "name" with
  | .error e => .error e
  | .ok cityVal =>
    match (data.get "main").bind (fun m => m.get "temp") with
    | .error e => .error e
    | .ok tempVal =>
      match data.get "weather" with
      | .error e => .error e
      | .ok w =>
        let w0 := w.optIndexZero
        .ok [("city", cityVal),
             ("temp", tempVal),
             ("description", (w0.optMember "description").nullish (.str "N/A")),
             ("icon", (w0.optMember "icon").nullish (.str "N/A"))]

/-- The weather route handler, src/server.ts lines 36-117.  `city` is the
`city` query parameter (absent or a string), `apiKey` is the value of the
environment variable OPENWEATHER_API_KEY read inside the handler at line
51, and `upstream` is the outcome the outbound call would produce if
executed.  The surrounding try/catch turns every thrown error after the
two guard checks into the 500 response of line 115. -/
def weatherHandler (city : Option String) (apiKey : Option String)
    (upstream : FetchOutcome) : WeatherOutcome :=
  if strFalsy city then
    { response := resStatusJson 400 [("error", .str "Paramètre \x27city\x27 manquant.")],
      upstreamCalled := false }
  else if strFalsy apiKey then
    { response := resStatusJson 500 [("error", .str "Clé API manquante côté serveur.")],
      upstreamCalled := false }
  else
    match upstream with
    | .networkError _ =>
      { response := resStatusJson 500 [("error", .str "Erreur serveur.")],
        upstreamCalled := true }
    | .ok resp =>
      if !responseOk resp.status then
        if resp.status = 404 then
          { response := resStatusJson 404 [("error", .str "Ville introuvable.")],
            upstreamCalled := true }
        else
          { response := resStatusJson 500 [("error", .str "Erreur lors de l\x27appel à l\x27API météo.")],
            upstreamCalled := true }
      else
        match resp.parsedBody with
        | .error _ =>
          { response := resStatusJson 500 [("error", .str "Erreur serveur.")],
            upstreamCalled := true }
        | .ok data =>
          match buildSuccessBody data with
          | .error _ =>
            { response := resStatusJson 500 [("error", .str "Erreur serveur.")],
              upstreamCalled := true }
          | .ok body =>
            { response := resJson body, upstreamCalled := true }

/-- The health route handler, src/server.ts lines 29-32: takes no input
and returns the fixed payload via `res.json`. -/
def healthHandler : HttpResponse :=
  resJson [("status", .str "ok")]

/-- The process environment variables the program reads. -/
structure Env where
  OPENWEATHER_API_KEY : Option String
  PORT : Option String

/-- The server bootstrap, src/server.ts lines 123-129: compute the
listening port as `process.env.PORT || 3000` and start listening.  It
reads only PORT; it performs no check on the credential, and it has no
failure path. -/
def startupPort (env : Env) : String :=
  match env.PORT with
  | none => "3000"
  | some p => if p == "" then "3000" else p

/-- The parsed upstream payload of the nominal test case: name Paris,
main.temp 15.2, one weather condition with description and icon. -/
def parisPayload : JsVal :=
  .obj [("name", .str "Paris"),
        ("main", .obj [("temp", .num 15.2)]),
        ("weather", .arr [.obj [("description", .str "ciel dégagé"), ("icon", .str "01d")]])]

lemma strFalsy_some_ne (s : String) (h : s ≠ "") : strFalsy (some s) = false := by
  simp [strFalsy, h]

/-- Claim C1: with a present non-empty city, a configured credential, and
an upstream 200 whose body parses to the Paris payload, the handler
returns status 200 with exactly the body city Paris, temp 15.2,
description ciel dégagé, icon 01d — city from the upstream name, temp
from main.temp, description and icon from the first weather element. -/
theorem weather_success_paris (c k : String) (hc : c ≠ "") (hk : k ≠ "") :
    weatherHandler (some c) (some k) (.ok { status := 200, parsedBody := .ok parisPayload }) =
    { response := { status := 200,
                    body := [("city", .str "Paris"), ("temp", .num 15.2),
                             ("description", .str "ciel dégagé"), ("icon", .str "01d")] },
      upstreamCalled := true } := by
  simp only [weatherHandler, strFalsy_some_ne c hc, strFalsy_some_ne k hk]
  rfl

theorem weather_success_paris_witness :
    "Paris" ≠ "" ∧ "key" ≠ "" ∧
    weatherHandler (some "Paris") (some "key")
        (.ok { status := 200, parsedBody := .ok parisPayload }) =
    { response := { status := 200,
                    body := [("city", .str "Paris"), ("temp", .num 15.2),
                             ("description", .str "ciel dégagé"), ("icon", .str "01d")] },
      upstreamCalled := true } :=
  ⟨by decide, by decide, weather_success_paris "Paris" "key" (by decide) (by decide)⟩

/-- Claim C3: whenever the city query parameter is missing or empty, the
handler answers 400 with a body holding only an error field, and the
outbound call is never made — for every credential state and every
upstream behaviour. -/
theorem weather_missing_city_400 (city apiKey : Option String) (u : FetchOutcome)
    (h : city = none ∨ city = some "") :
    weatherHandler city apiKey u =
    { response := { status := 400, body := [("error", .str "Paramètre \x27city\x27 manquant.")] },
      upstreamCalled := false } := by
  rcases h with h | h <;> subst h <;> rfl

theorem weather_missing_city_400_witness :
    ((none : Option String) = none ∨ (none : Option String) = some "") ∧
    weatherHandler none (some "key") (.networkError "boom") =
    { response := { status := 400, body := [("error", .str "Paramètre \x27city\x27 manquant.")] },
      upstreamCalled := false } :=
  ⟨Or.inl rfl, weather_missing_city_400 none (some "key") (.networkError "boom") (Or.inl rfl)⟩

/-- Claim C9: the health handler returns status 200 with exactly the body
status ok; it reads no input (it is a closed constant) and produces no
other effect. -/
theorem health_ok :
    healthHandler = { status := 200, body := [("status", JsVal.str "ok")] } := rfl

/-- Claim C5, counterexample to the startup clause: the bootstrap (lines
123-129) computes the port and listens without consulting the credential,
so a process with an absent OPENWEATHER_API_KEY starts exactly as one
with it configured — the credential is not required at process startup. -/
theorem startup_ignores_credential :
    startupPort { OPENWEATHER_API_KEY := none, PORT := none } = "3000" ∧
    startupPort { OPENWEATHER_API_KEY := none, PORT := none } =
      startupPort { OPENWEATHER_API_KEY := some "secret-key", PORT := none } :=
  ⟨rfl, rfl⟩

/-- Claim C5, amended: for every weather request with a non-empty city,
when the credential is absent (unset, or set to the empty string) the
handler returns status 500 with an error body and the upstream is never
called; the credential is read inside the handler on each request rather
than being required at process startup. -/
theorem weather_missing_key_500 (c : String) (apiKey : Option String) (u : FetchOutcome)
    (hc : c ≠ "") (hk : apiKey = none ∨ apiKey = some "") :
    weatherHandler (some c) apiKey u =
    { response := { status := 500, body := [("error", .str "Clé API manquante côté serveur.")] },
      upstreamCalled := false } := by
  rcases hk with h | h <;> subst h <;>
    simp only [weatherHandler, strFalsy_some_ne c hc] <;> rfl

theorem weather_missing_key_500_witness :
    "Paris" ≠ "" ∧
    ((none : Option String) = none ∨ (none : Option String) = some "") ∧
    weatherHandler (some "Paris") none (.networkError "boom") =
    { response := { status := 500, body := [("error", .str "Clé API manquante côté serveur.")] },
      upstreamCalled := false } :=
  ⟨by decide, Or.inl rfl,
    weather_missing_key_500 "Paris" none (.networkError "boom") (by decide) (Or.inl rfl)⟩

/-- Claim C2: when the upstream call succeeds with status 200 and the
parsed payload is an object whose weather field is absent or an empty
array, and the temp read from main.temp succeeds as in the normal success
case, the handler returns 200 with description and icon N/A while city
(from the name field) and temp are taken from the payload unchanged. -/
theorem weather_empty_weather_defaults (c k : String) (fs : List (String × JsVal))
    (t : JsVal) (hc : c ≠ "") (hk : k ≠ "")
    (hw : fs.lookup "weather" = none ∨ fs.lookup "weather" = some (.arr []))
    (ht : ((fs.lookup "main").getD .undefined).get "temp" = .ok t) :
    weatherHandler (some c) (some k) (.ok { status := 200, parsedBody := .ok (.obj fs) }) =
    { response := { status := 200,
                    body := [("city", (fs.lookup "name").getD .undefined), ("temp", t),
                             ("description", .str "N/A"), ("icon", .str "N/A")] },
      upstreamCalled := true } := by
  have hbind : ((JsVal.obj fs).get "main").bind (fun m => m.get "temp") = Except.ok t := ht
  rcases hw with hw | hw <;>
    simp [weatherHandler, strFalsy_some_ne c hc, strFalsy_some_ne k hk, responseOk,
      buildSuccessBody, hbind, hw, JsVal.optIndexZero, JsVal.optMember, JsVal.indexZero,
      JsVal.nullish, resJson,
      show (JsVal.obj fs).get "name" = .ok ((fs.lookup "name").getD .undefined) from rfl,
      show (JsVal.obj fs).get "weather" = .ok ((fs.lookup "weather").getD .undefined) from rfl]

theorem weather_empty_weather_defaults_witness :
    "Lyon" ≠ "" ∧ "key" ≠ "" ∧
    ([("name", JsVal.str "Lyon"), ("main", JsVal.obj [("temp", JsVal.num 7)])].lookup "weather" = none ∨
      [("name", JsVal.str "Lyon"), ("main", JsVal.obj [("temp", JsVal.num 7)])].lookup "weather" =
        some (.arr [])) ∧
    (([("name", JsVal.str "Lyon"),
       ("main", JsVal.obj [("temp", JsVal.num 7)])].lookup "main").getD .undefined).get "temp" =
      .ok (JsVal.num 7) ∧
    weatherHandler (some "Lyon") (some "key")
        (.ok { status := 200,
               parsedBody := .ok (.obj [("name", JsVal.str "Lyon"),
                                        ("main", JsVal.obj [("temp", JsVal.num 7)])]) }) =
    { response := { status := 200,
                    body := [("city", JsVal.str "Lyon"), ("temp", JsVal.num 7),
                             ("description", .str "N/A"), ("icon", .str "N/A")] },
      upstreamCalled := true } :=
  ⟨by decide, by decide, Or.inl rfl, rfl,
    weather_empty_weather_defaults "Lyon" "key"
      [("name", JsVal.str "Lyon"), ("main", JsVal.obj [("temp", JsVal.num 7)])]
      (JsVal.num 7) (by decide) (by decide) (Or.inl rfl) rfl⟩

/-- Claim C4: with a non-empty city and a configured credential, when the
upstream responds with a status outside 200..299 the handler answers 404
with error Ville introuvable. if that status is 404, and otherwise
answers 500 with the fixed generic body — the same body for every other
failing status and every upstream payload, so no upstream detail reaches
the caller. -/
theorem weather_upstream_failure_mapping (c k : String) (resp : UpstreamResponse)
    (hc : c ≠ "") (hk : k ≠ "")
    (hfail : ¬ (200 ≤ resp.status ∧ resp.status ≤ 299)) :
    weatherHandler (some c) (some k) (.ok resp) =
    if resp.status = 404 then
      { response := { status := 404, body := [("error", .str "Ville introuvable.")] },
        upstreamCalled := true }
    else
      { response := { status := 500,
                      body := [("error", .str "Erreur lors de l\x27appel à l\x27API météo.")] },
        upstreamCalled := true } := by
  have hok : responseOk resp.status = false := by
    simp only [responseOk, Bool.and_eq_false_iff, decide_eq_false_iff_not]
    omega
  by_cases h404 : resp.status = 404 <;>
    simp [weatherHandler, strFalsy_some_ne c hc, strFalsy_some_ne k hk, hok] <;>
    simp [h404, resStatusJson]

theorem weather_upstream_failure_mapping_witness :
    "Paris" ≠ "" ∧ "key" ≠ "" ∧ ¬ (200 ≤ 404 ∧ 404 ≤ 299) ∧
    weatherHandler (some "Paris") (some "key")
        (.ok { status := 404, parsedBody := .ok .null }) =
    { response := { status := 404, body := [("error", .str "Ville introuvable.")] },
      upstreamCalled := true } ∧
    weatherHandler (some "Paris") (some "key")
        (.ok { status := 503, parsedBody := .ok .null }) =
    { response := { status := 500,
                    body := [("error", .str "Erreur lors de l\x27appel à l\x27API météo.")] },
      upstreamCalled := true } :=
  ⟨by decide, by decide, by decide,
    weather_upstream_failure_mapping "Paris" "key"
      { status := 404, parsedBody := .ok .null } (by decide) (by decide) (by decide),
    weather_upstream_failure_mapping "Paris" "key"
      { status := 503, parsedBody := .ok .null } (by decide) (by decide) (by decide)⟩

/-- Claim C6: when the outbound call throws (upstream unreachable) or the
body fails to parse as JSON, the handler returns status 500 with the
fixed generic body Erreur serveur. — the same body for every exception
text, so the text of the exception never reaches the caller. -/
theorem weather_exception_500_generic (c k msg : String)
    (hc : c ≠ "") (hk : k ≠ "") :
    weatherHandler (some c) (some k) (.networkError msg) =
      { response := { status := 500, body := [("error", .str "Erreur serveur.")] },
        upstreamCalled := true } ∧
    weatherHandler (some c) (some k) (.ok { status := 200, parsedBody := .error msg }) =
      { response := { status := 500, body := [("error", .str "Erreur serveur.")] },
        upstreamCalled := true } := by
  constructor <;>
    simp only [weatherHandler, strFalsy_some_ne c hc, strFalsy_some_ne k hk] <;> rfl

theorem weather_exception_500_generic_witness :
    "Paris" ≠ "" ∧ "key" ≠ "" ∧
    weatherHandler (some "Paris") (some "key") (.networkError "ECONNREFUSED") =
      { response := { status := 500, body := [("error", .str "Erreur serveur.")] },
        upstreamCalled := true } :=
  ⟨by decide, by decide,
    (weather_exception_500_generic "Paris" "key" "ECONNREFUSED" (by decide) (by decide)).1⟩

/-- Claim C7: when the upstream succeeds with status 200 but the parsed
payload is an object with no main field, the read of main.temp throws, the
catch block takes over, and the handler answers with the generic internal
error: status 500, body Erreur serveur. -/
theorem weather_malformed_payload_internal_error (c k : String)
    (fs : List (String × JsVal)) (hc : c ≠ "") (hk : k ≠ "")
    (hmain : fs.lookup "main" = none) :
    weatherHandler (some c) (some k) (.ok { status := 200, parsedBody := .ok (.obj fs) }) =
    { response := { status := 500, body := [("error", .str "Erreur serveur.")] },
      upstreamCalled := true } := by
  have hbind : ((JsVal.obj fs).get "main").bind (fun m => m.get "temp") =
      Except.error "TypeError: cannot read properties of undefined (reading temp)" := by
    show ((fs.lookup "main").getD JsVal.undefined).get "temp" = _
    rw [hmain]
    rfl
  simp [weatherHandler, strFalsy_some_ne c hc, strFalsy_some_ne k hk, responseOk,
    buildSuccessBody, hbind, resStatusJson,
    show (JsVal.obj fs).get "name" = .ok ((fs.lookup "name").getD .undefined) from rfl]

theorem weather_malformed_payload_internal_error_witness :
    "Paris" ≠ "" ∧ "key" ≠ "" ∧
    ([("name", JsVal.str "Paris")].lookup "main" = none) ∧
    weatherHandler (some "Paris") (some "key")
        (.ok { status := 200, parsedBody := .ok (.obj [("name", JsVal.str "Paris")]) }) =
    { response := { status := 500, body := [("error", .str "Erreur serveur.")] },
      upstreamCalled := true } :=
  ⟨by decide, by decide, rfl,
    weather_malformed_payload_internal_error "Paris" "key"
      [("name", JsVal.str "Paris")] (by decide) (by decide) rfl⟩

lemma weatherHandler_status_or_error (city apiKey : Option String) (u : FetchOutcome) :
    (weatherHandler city apiKey u).response.status = 200 ∨
    ∃ msg, (weatherHandler city apiKey u).response.body = [("error", JsVal.str msg)] := by
  unfold weatherHandler
  repeat' split
  all_goals first
    | exact Or.inl rfl
    | exact Or.inr ⟨_, rfl⟩

/-- Claim C8: every non-200 response of the weather handler — across all
five error outcomes — carries a body that is a JSON object with exactly
one field, a human-readable error string, and nothing else. -/
theorem weather_error_body_single_field (city apiKey : Option String) (u : FetchOutcome)
    (h : (weatherHandler city apiKey u).response.status ≠ 200) :
    ∃ msg, (weatherHandler city apiKey u).response.body = [("error", JsVal.str msg)] :=
  (weatherHandler_status_or_error city apiKey u).resolve_left h

theorem weather_error_body_single_field_witness :
    (weatherHandler none none (.networkError "boom")).response.status ≠ 200 ∧
    ∃ msg, (weatherHandler none none (.networkError "boom")).response.body =
      [("error", JsVal.str msg)] :=
  ⟨by decide, weather_error_body_single_field none none (.networkError "boom") (by decide)⟩

/-- Claim C10: the missing-city check at line 45 runs before the
credential check at line 57, so a request with both absent gets 400, not
500, and no outbound call; the handler treats an empty-string credential
exactly as an absent one — the outcome is identical for every upstream —
and with a non-empty city that outcome is the 500 misconfiguration
response with no outbound call.  The credential itself is an argument of
each handler invocation, mirroring the per-request read of line 51. -/
theorem weather_city_check_before_key_check (u : FetchOutcome) (c : String)
    (hc : c ≠ "") :
    (weatherHandler none none u).response.status = 400 ∧
    (weatherHandler none none u).upstreamCalled = false ∧
    weatherHandler (some c) (some "") u = weatherHandler (some c) none u ∧
    (weatherHandler (some c) (some "") u).response.status = 500 ∧
    (weatherHandler (some c) (some "") u).upstreamCalled = false := by
  refine ⟨rfl, rfl, ?_, ?_, ?_⟩
  · by_cases h : c = "" <;> simp [weatherHandler, strFalsy, h]
  · simp [weatherHandler, strFalsy, hc, resStatusJson]
  · simp [weatherHandler, strFalsy, hc]

theorem weather_city_check_before_key_check_witness :
    "Paris" ≠ "" ∧
    (weatherHandler none none (.networkError "boom")).response.status = 400 ∧
    (weatherHandler (some "Paris") (some "") (.networkError "boom")).response.status = 500 :=
  ⟨by decide,
    (weather_city_check_before_key_check (.networkError "boom") "Paris" (by decide)).1,
    (weather_city_check_before_key_check (.networkError "boom") "Paris" (by decide)).2.2.2.1⟩
